import Mathlib

/-!
Verification of the day-based timesheet and work-day session tracker.

The data model (`TimesheetStatus`, `DayStatus`, `Timesheet`, `WorkDay`,
`DaySummary`) follows `@/types` as used by `DayTimeCard` and `DayHeader`.
Timestamps are modelled as `Int` milliseconds since the epoch (the value of
JavaScript `Date.getTime()`); accumulated durations are `Int` seconds.

`formatDuration`, `getCurrentSessionDuration`, `getTotalDisplayDuration` and
`renderTimesheetControls` are embedded from the `DayTimeCard` component;
`formatTime`, the time-info line and the read-only chip from `DayHeader`.
The transition operations themselves live behind the `onStartTimesheet` /
`onPauseTimesheet` / `onFinishTimesheet` callbacks outside the given sources,
so they are modelled from the specification (each such definition says so in
its doc comment).
-/

/-- Timesheet status enumeration (`TimesheetStatus` in `@/types`):
NOT_STARTED, IN_PROGRESS, PAUSED, COMPLETED. -/
inductive TimesheetStatus where
  | notStarted
  | inProgress
  | paused
  | completed
deriving DecidableEq, Repr

/-- Day status enumeration (`DayStatus` in `@/types`): the day-level mirror of
the timesheet status, with values programmed (not yet started), in progress
and completed. -/
inductive DayStatus where
  | programmed
  | inProgress
  | completed
deriving DecidableEq, Repr

/-- The clock-in/out state of one work day (`Timesheet` in `@/types`).
`currentSessionStart` is the `Date` of the most recent clock-in (epoch
milliseconds); `totalDuration` is the accumulated seconds of all finished
sessions. -/
structure Timesheet where
  status : TimesheetStatus
  currentSessionStart : Option Int
  totalDuration : Int
deriving DecidableEq, Repr

/-- The aggregate counters shown for a completed day (`workDay.summary` as
read by `DayHeader`): tasks completed, total work time in seconds, evidences
submitted. -/
structure DaySummary where
  totalTasksCompleted : Int
  totalWorkTime : Int
  evidencesSubmitted : Int
deriving DecidableEq, Repr

/-- A single calendar day's record (`WorkDay` in `@/types`): date, day-level
status, optional first clock-in and final clock-out times, the owned
timesheet, and the optional completed-day summary. -/
structure WorkDay where
  date : Int
  status : DayStatus
  startTime : Option Int
  endTime : Option Int
  timesheet : Timesheet
  summary : Option DaySummary
deriving DecidableEq, Repr

/-! ### Decimal rendering (model of JavaScript `Number.prototype.toString`)

`DayTimeCard.formatDuration` calls `hours.toString()` on natural numbers; the
fuel-based `natToDigitsCore` below renders a natural number in decimal, the
fuel `n + 1` always sufficing because the argument shrinks by a factor of ten
per step. -/

/-- Render the decimal digits of `n` in front of `acc`; `fuel` bounds the
recursion depth and is never exhausted when `n < fuel`. -/
def natToDigitsCore : Nat → Nat → List Char → List Char
  | 0, _, acc => acc
  | fuel + 1, n, acc =>
    let d := Char.ofNat (48 + n % 10)
    if n < 10 then d :: acc else natToDigitsCore fuel (n / 10) (d :: acc)

/-- Decimal string of a natural number, the model of JavaScript
`Number.prototype.toString` on non-negative integers. -/
def natToString (n : Nat) : String :=
  String.mk (natToDigitsCore (n + 1) n [])

/-- Model of JavaScript `String.prototype.padStart(len, c)`: left-pad with `c`
up to length `len`; a string already at least that long is returned unchanged. -/
def padStart (s : String) (len : Nat) (c : Char) : String :=
  String.mk (List.replicate (len - s.data.length) c ++ s.data)

/-- Embedding of `DayTimeCard.formatDuration`: split a second count into hours, minutes and
seconds and render each zero-padded to two digits, joined by colons. -/
def formatDuration (seconds : Nat) : String :=
  let hours := seconds / 3600
  let minutes := (seconds % 3600) / 60
  let secs := seconds % 60
  padStart (natToString hours) 2 '0' ++ ":" ++
    padStart (natToString minutes) 2 '0' ++ ":" ++
    padStart (natToString secs) 2 '0'

/-- Every character of the list is a decimal digit. -/
def allDigits (l : List Char) : Bool :=
  l.all Char.isDigit

/-- The shape demanded by the regular expression `^\d+:\d\x7b2\x7d:\d\x7b2\x7d$`:
one or more digits, a colon, exactly two digits, a colon, exactly two digits. -/
def matchesHMS (str : String) : Prop :=
  ∃ h m s : List Char,
    str.data = h ++ ':' :: (m ++ ':' :: s) ∧
    h ≠ [] ∧ allDigits h = true ∧
    m.length = 2 ∧ allDigits m = true ∧
    s.length = 2 ∧ allDigits s = true

/-! ### Session clock (`DayTimeCard.getCurrentSessionDuration`,
`DayTimeCard.getTotalDisplayDuration`) -/

/-- Embedding of `DayTimeCard.getCurrentSessionDuration`: `0` when no session is active,
otherwise `Math.floor((currentTime - currentSessionStart) / 1000)`, the floor
being `Int.fdiv`. -/
def getCurrentSessionDuration (currentSessionStart : Option Int) (currentTime : Int) : Int :=
  match currentSessionStart with
  | none => 0
  | some start => Int.fdiv (currentTime - start) 1000

/-- Embedding of `DayTimeCard.getTotalDisplayDuration`: `totalDuration` plus the live
session length when the status is in progress, `totalDuration` alone
otherwise. -/
def getTotalDisplayDuration (t : Timesheet) (currentTime : Int) : Int :=
  let currentSessionDuration :=
    if t.status = TimesheetStatus.inProgress then
      getCurrentSessionDuration t.currentSessionStart currentTime
    else 0
  t.totalDuration + currentSessionDuration

/-! ### Control rendering (`DayTimeCard.renderTimesheetControls`,
`DayHeader`) -/

/-- The user intents the presentation layer can forward to the tracker core:
start/resume, pause, finish. -/
inductive TimesheetAction where
  | start
  | pause
  | finish
deriving DecidableEq, Repr

/-- The widgets `DayTimeCard.renderTimesheetControls` can emit: the completed
indicator, the "Iniciar Fichaje" button, the "Pausar" button, the "Finalizar"
button and the "Reanudar" button. -/
inductive TimesheetControl where
  | completedIndicator
  | startButton
  | pauseButton
  | finishButton
  | resumeButton
deriving DecidableEq, Repr

/-- Which transition callback a control invokes when pressed: the start and
resume buttons both call `onStartTimesheet`; the completed indicator is
inert. -/
def controlAction : TimesheetControl → Option TimesheetAction
  | .completedIndicator => none
  | .startButton => some .start
  | .pauseButton => some .pause
  | .finishButton => some .finish
  | .resumeButton => some .start

/-- Embedding of `DayTimeCard.renderTimesheetControls`: a completed timesheet renders only
the "Fichaje completado" indicator; otherwise the switch on the status offers
start from not-started, pause and finish from in-progress, resume and finish
from paused. -/
def renderTimesheetControls (t : Timesheet) : List TimesheetControl :=
  if t.status = TimesheetStatus.completed then
    [.completedIndicator]
  else
    match t.status with
    | .notStarted => [.startButton]
    | .inProgress => [.pauseButton, .finishButton]
    | .paused => [.resumeButton, .finishButton]
    | .completed => []

/-- The transition actions reachable from the rendered controls of a
timesheet. -/
def offeredActions (t : Timesheet) : List TimesheetAction :=
  (renderTimesheetControls t).filterMap controlAction

/-- Whether `DayHeader` shows the "Solo lectura" chip exactly when the day status is
completed. -/
def isReadOnlyChipShown (w : WorkDay) : Bool :=
  w.status = DayStatus.completed

/-- Embedding of `DayHeader.formatTime`: render a timestamp as zero-padded `HH:MM`
(`toLocaleTimeString` with 2-digit hour and minute; the locale's clock is
modelled as UTC). -/
def formatTime (t : Int) : String :=
  padStart (natToString ((Int.fdiv t 3600000) % 24).toNat) 2 '0' ++ ":" ++
    padStart (natToString ((Int.fdiv t 60000) % 60).toNat) 2 '0'

/-- The "Inicio: … • Fin: …" line of `DayHeader`. The source applies
`formatTime` to `workDay.startTime` with no presence check even though the
field is optional, so the embedding is defined (returns `some`) only when
`startTime` is present; `endTime` is rendered only when present, guarded by
`workDay.endTime && …`. -/
def renderTimeInfo (w : WorkDay) : Option String :=
  match w.startTime with
  | none => none
  | some st =>
      some ("Inicio: " ++ formatTime st ++
        (match w.endTime with
         | some et => " • Fin: " ++ formatTime et
         | none => ""))

/-! ### Timesheet state machine, modelled from the spec

The transition handlers invoked by `onStartTimesheet`, `onPauseTimesheet` and
`onFinishTimesheet` are not among the given sources; the definitions below
follow the specification's transition table, error taxonomy and persistence
protocol. -/

/-- The error taxonomy of the tracker core: invalid transition for the current
status, mutation of a completed record, failed gateway write. -/
inductive TransitionError where
  | InvalidTransition
  | TerminalStateViolation
  | PersistenceFailure
deriving DecidableEq, Repr

/-- Modelled from the spec: the start/resume transition (the handler behind
`onStartTimesheet` is outside the given sources). A completed record rejects
every mutation with `TerminalStateViolation`; from not-started or paused the
status becomes in-progress with `currentSessionStart = now` (`totalDuration`
untouched), the first start also recording the day's `startTime` and moving
the day status to in progress; from in-progress the call fails with
`InvalidTransition`. -/
def startWorkDay (w : WorkDay) (now : Int) : Except TransitionError WorkDay :=
  if w.status = DayStatus.completed ∨ w.timesheet.status = TimesheetStatus.completed then
    .error .TerminalStateViolation
  else
    match w.timesheet.status with
    | .notStarted =>
        .ok { w with
          status := DayStatus.inProgress,
          startTime := some now,
          timesheet := { w.timesheet with
            status := TimesheetStatus.inProgress,
            currentSessionStart := some now } }
    | .paused =>
        .ok { w with
          status := DayStatus.inProgress,
          timesheet := { w.timesheet with
            status := TimesheetStatus.inProgress,
            currentSessionStart := some now } }
    | _ => .error .InvalidTransition

/-- Modelled from the spec: the pause transition (the handler behind
`onPauseTimesheet` is outside the given sources). Valid only from
in-progress: the running session's elapsed seconds are added to
`totalDuration`, `currentSessionStart` is cleared and the status becomes
paused; a completed record fails with `TerminalStateViolation`, any other
status with `InvalidTransition`. -/
def pauseWorkDay (w : WorkDay) (now : Int) : Except TransitionError WorkDay :=
  if w.status = DayStatus.completed ∨ w.timesheet.status = TimesheetStatus.completed then
    .error .TerminalStateViolation
  else
    match w.timesheet.status with
    | .inProgress =>
        .ok { w with
          timesheet :=
            { status := TimesheetStatus.paused,
              currentSessionStart := none,
              totalDuration := w.timesheet.totalDuration +
                getCurrentSessionDuration w.timesheet.currentSessionStart now } }
    | _ => .error .InvalidTransition

/-- Modelled from the spec: the finish transition (the handler behind
`onFinishTimesheet` is outside the given sources). From in-progress it first
accumulates like pause, from paused it accumulates nothing; either way it sets
`WorkDay.endTime = now`, populates `WorkDay.summary` (task and evidence
counters supplied by the caller, work time from the final `totalDuration`) and
moves both statuses to completed. A completed record fails with
`TerminalStateViolation`, a not-started one with `InvalidTransition`. -/
def finishWorkDay (w : WorkDay) (now : Int) (tasksCompleted evidences : Int) :
    Except TransitionError WorkDay :=
  if w.status = DayStatus.completed ∨ w.timesheet.status = TimesheetStatus.completed then
    .error .TerminalStateViolation
  else
    match w.timesheet.status with
    | .inProgress =>
        let newTotal := w.timesheet.totalDuration +
          getCurrentSessionDuration w.timesheet.currentSessionStart now
        .ok { w with
          status := DayStatus.completed,
          endTime := some now,
          summary := some ⟨tasksCompleted, newTotal, evidences⟩,
          timesheet :=
            { status := TimesheetStatus.completed,
              currentSessionStart := none,
              totalDuration := newTotal } }
    | .paused =>
        .ok { w with
          status := DayStatus.completed,
          endTime := some now,
          summary := some ⟨tasksCompleted, w.timesheet.totalDuration, evidences⟩,
          timesheet := { w.timesheet with
            status := TimesheetStatus.completed,
            currentSessionStart := none } }
    | _ => .error .InvalidTransition

/-- Outcome of the asynchronous gateway write that follows a transition. -/
inductive WriteResult where
  | success
  | failure
deriving DecidableEq, Repr

/-- Modelled from the spec: a transition is committed only when the
persistence write succeeds. The pair returned is the in-memory `WorkDay`
after the attempt and the surfaced error, if any: a rejected transition and a
failed write both leave the in-memory record at its pre-transition value, the
failed write surfacing `PersistenceFailure`. -/
def commitTransition (w : WorkDay) (result : Except TransitionError WorkDay)
    (write : WriteResult) : WorkDay × Option TransitionError :=
  match result with
  | .error e => (w, some e)
  | .ok w' =>
      match write with
      | .success => (w', none)
      | .failure => (w, some .PersistenceFailure)

/-- Modelled from the spec: start followed by the persistence write. -/
def startWithPersistence (w : WorkDay) (now : Int) (write : WriteResult) :
    WorkDay × Option TransitionError :=
  commitTransition w (startWorkDay w now) write

/-- Modelled from the spec: pause followed by the persistence write. -/
def pauseWithPersistence (w : WorkDay) (now : Int) (write : WriteResult) :
    WorkDay × Option TransitionError :=
  commitTransition w (pauseWorkDay w now) write

/-- Modelled from the spec: finish followed by the persistence write. -/
def finishWithPersistence (w : WorkDay) (now : Int) (tasksCompleted evidences : Int)
    (write : WriteResult) : WorkDay × Option TransitionError :=
  commitTransition w (finishWorkDay w now tasksCompleted evidences) write

/-! ### Data-model invariants (§3 of the spec) -/

/-- The timesheet invariant: `currentSessionStart` is present exactly when the
status is in-progress. -/
def timesheetInv (t : Timesheet) : Prop :=
  t.currentSessionStart.isSome = true ↔ t.status = TimesheetStatus.inProgress

instance (t : Timesheet) : Decidable (timesheetInv t) := by
  unfold timesheetInv
  infer_instance

/-- The work-day invariant: the timesheet invariant, plus `endTime` set iff
the day is completed, plus `summary` present iff the day is completed. -/
def workDayInv (w : WorkDay) : Prop :=
  timesheetInv w.timesheet ∧
  (w.endTime.isSome = true ↔ w.status = DayStatus.completed) ∧
  (w.summary.isSome = true ↔ w.status = DayStatus.completed)

instance (w : WorkDay) : Decidable (workDayInv w) := by
  unfold workDayInv
  infer_instance

/-! ### Lemmas about decimal rendering and padding -/

/-- The character produced for any decimal digit position is a digit
character. -/
theorem isDigit_ofNat_mod (n : Nat) : (Char.ofNat (48 + n % 10)).isDigit = true := by
  have h : n % 10 < 10 := Nat.mod_lt _ (by omega)
  generalize n % 10 = k at h
  interval_cases k <;> decide

/-- Characterisation of `natToDigitsCore` under sufficient fuel: it prepends a
non-empty block of digit characters to the accumulator, the block having one
character for `n < 10` and at most two for `n < 100`. -/
theorem natToDigitsCore_spec :
    ∀ fuel n acc, n < fuel →
      ∃ l, natToDigitsCore fuel n acc = l ++ acc ∧ l ≠ [] ∧ allDigits l = true ∧
        (n < 10 → l.length = 1) ∧ (n < 100 → l.length ≤ 2) := by
  intro fuel
  induction fuel with
  | zero => intro n acc h; omega
  | succ f ih =>
    intro n acc h
    by_cases h10 : n < 10
    · refine ⟨[Char.ofNat (48 + n % 10)], ?_, by simp, ?_, fun _ => rfl, fun _ => by simp⟩
      · simp [natToDigitsCore, h10]
      · simp [allDigits, isDigit_ofNat_mod n]
    · have hlt : n / 10 < f := by omega
      obtain ⟨l, hl, hne, hdig, hone, htwo⟩ := ih (n / 10) (Char.ofNat (48 + n % 10) :: acc) hlt
      refine ⟨l ++ [Char.ofNat (48 + n % 10)], ?_, by simp [hne], ?_, ?_, ?_⟩
      · simp [natToDigitsCore, h10, hl]
      · simp only [allDigits, List.all_append, Bool.and_eq_true] at hdig ⊢
        exact ⟨hdig, by simp [isDigit_ofNat_mod n]⟩
      · intro hc; omega
      · intro hc
        have : n / 10 < 10 := by omega
        simp [hone this]

/-- The decimal string of a natural number is a non-empty all-digit string
with at most two characters below one hundred. -/
theorem natToString_spec (n : Nat) :
    (natToString n).data ≠ [] ∧ allDigits (natToString n).data = true ∧
      (n < 100 → (natToString n).data.length ≤ 2) := by
  obtain ⟨l, hl, hne, hdig, _, htwo⟩ := natToDigitsCore_spec (n + 1) n [] (by omega)
  simp only [natToString, hl, List.append_nil]
  exact ⟨hne, hdig, htwo⟩

/-- The character data of a padded string. -/
theorem padStart_data (s : String) (len : Nat) (c : Char) :
    (padStart s len c).data = List.replicate (len - s.data.length) c ++ s.data := rfl

/-- Padding an all-digit string with the zero character keeps every character
a digit. -/
theorem allDigits_padStart (s : String) (len : Nat) (h : allDigits s.data = true) :
    allDigits (padStart s len '0').data = true := by
  simp only [padStart_data, allDigits, List.all_append, Bool.and_eq_true]
  refine ⟨?_, h⟩
  rw [List.all_eq_true]
  intro c hc
  rw [List.eq_of_mem_replicate hc]
  decide

/-- A string no longer than the pad target is padded to exactly that
length. -/
theorem padStart_length (s : String) (len : Nat) (c : Char) (h : s.data.length ≤ len) :
    (padStart s len c).data.length = len := by
  rw [padStart_data, List.length_append, List.length_replicate]
  omega

/-- A padded non-empty string is non-empty. -/
theorem padStart_ne_nil (s : String) (len : Nat) (c : Char) (hne : s.data ≠ []) :
    (padStart s len c).data ≠ [] := by
  simp [padStart_data, hne]

/-! ### The claims -/

/-- C8: for every non-negative integer number of seconds `s`, the duration
formatter returns a zero-padded `HH:MM:SS` string matching
`^\d+:\d\x7b2\x7d:\d\x7b2\x7d$`, with no upper bound on the hours field (it may
exceed 99 without truncation, e.g. 360000 seconds renders as "100:00:00"),
and `formatDuration 3661 = "01:01:01"`. -/
theorem formatDuration_matches_HMS :
    (∀ s : Nat, matchesHMS (formatDuration s)) ∧
    formatDuration 3661 = "01:01:01" ∧
    formatDuration 360000 = "100:00:00" := by
  refine ⟨fun s => ?_, by decide, by decide⟩
  obtain ⟨hne, hdig, _⟩ := natToString_spec (s / 3600)
  obtain ⟨_, mdig, mlen⟩ := natToString_spec (s % 3600 / 60)
  obtain ⟨_, sdig, slen⟩ := natToString_spec (s % 60)
  refine ⟨(padStart (natToString (s / 3600)) 2 '0').data,
          (padStart (natToString (s % 3600 / 60)) 2 '0').data,
          (padStart (natToString (s % 60)) 2 '0').data,
          ?_, ?_, ?_, ?_, ?_, ?_, ?_⟩
  · show (formatDuration s).data = _
    simp only [formatDuration, String.data_append]
    simp [List.append_assoc]
  · exact padStart_ne_nil _ _ _ hne
  · exact allDigits_padStart _ _ hdig
  · exact padStart_length _ _ _ (mlen (by omega))
  · exact allDigits_padStart _ _ mdig
  · exact padStart_length _ _ _ (slen (by omega))
  · exact allDigits_padStart _ _ sdig

/-- C7: the session clock is a pure function of the stored state and the
current instant: with no active session it returns 0, with a session started
at `t0` and sampled at `now` it returns the elapsed whole seconds
`⌊(now − t0) / 1000⌋`; the displayed total is `totalDuration` plus that
elapsed time while in-progress and exactly `totalDuration` otherwise; and with
`totalDuration = 0` and a session started at `t0`, sampling at `t0` plus 30
seconds displays 30. -/
theorem sessionClock_spec :
    (∀ now : Int, getCurrentSessionDuration none now = 0) ∧
    (∀ t0 now : Int,
      getCurrentSessionDuration (some t0) now = Int.fdiv (now - t0) 1000) ∧
    (∀ (t : Timesheet) (now : Int), t.status = TimesheetStatus.inProgress →
      getTotalDisplayDuration t now =
        t.totalDuration + getCurrentSessionDuration t.currentSessionStart now) ∧
    (∀ (t : Timesheet) (now : Int), t.status ≠ TimesheetStatus.inProgress →
      getTotalDisplayDuration t now = t.totalDuration) ∧
    (∀ t0 : Int,
      getTotalDisplayDuration ⟨TimesheetStatus.inProgress, some t0, 0⟩ (t0 + 30000) = 30) := by
  refine ⟨fun _ => rfl, fun _ _ => rfl, fun t now h => ?_, fun t now h => ?_, fun t0 => ?_⟩
  · simp [getTotalDisplayDuration, h]
  · simp [getTotalDisplayDuration, h]
  · show 0 + Int.fdiv (t0 + 30000 - t0) 1000 = 30
    have h30 : t0 + 30000 - t0 = 30000 := by ring
    rw [h30]
    decide

/-- C7 witness: the conjuncts with hypotheses, applied at a concrete
timesheet. -/
theorem sessionClock_spec_witness :
    getTotalDisplayDuration ⟨TimesheetStatus.inProgress, some 0, 5⟩ 30000 = 5 + 30 ∧
    getTotalDisplayDuration ⟨TimesheetStatus.paused, some 0, 5⟩ 30000 = 5 := by
  constructor
  · have h := sessionClock_spec.2.2.1 ⟨TimesheetStatus.inProgress, some 0, 5⟩ 30000 rfl
    rw [h]
    decide
  · exact sessionClock_spec.2.2.2.1 ⟨TimesheetStatus.paused, some 0, 5⟩ 30000 (by decide)

/-- C10: for every timesheet whose status is not in-progress, the displayed
total duration equals `totalDuration` exactly, whatever `currentSessionStart`
(even erroneously present) and the current time are. -/
theorem displayDuration_not_inProgress (status : TimesheetStatus)
    (css : Option Int) (total : Int) (now : Int)
    (h : status ≠ TimesheetStatus.inProgress) :
    getTotalDisplayDuration ⟨status, css, total⟩ now = total := by
  simp [getTotalDisplayDuration, h]

/-- C10 witness: a paused timesheet with a stale `currentSessionStart` still
displays exactly its stored duration. -/
theorem displayDuration_not_inProgress_witness :
    getTotalDisplayDuration ⟨TimesheetStatus.paused, some 0, 42⟩ 99999 = 42 :=
  displayDuration_not_inProgress TimesheetStatus.paused (some 0) 42 99999 (by decide)

/-- C9: the day header's "Inicio:" line applies `formatTime` to
`workDay.startTime` unconditionally, so the rendered line is defined exactly
when `startTime` is present, even though the field is optional; `endTime`, by
contrast, is rendered only when present. -/
theorem dayHeader_timeInfo_spec (w : WorkDay) :
    (w.startTime = none → renderTimeInfo w = none) ∧
    (∀ st, w.startTime = some st → w.endTime = none →
      renderTimeInfo w = some ("Inicio: " ++ formatTime st)) ∧
    (∀ st et, w.startTime = some st → w.endTime = some et →
      renderTimeInfo w = some ("Inicio: " ++ formatTime st ++ " • Fin: " ++ formatTime et)) := by
  refine ⟨fun h => ?_, fun st hst het => ?_, fun st et hst het => ?_⟩
  · simp [renderTimeInfo, h]
  · simp [renderTimeInfo, hst, het]
  · simp [renderTimeInfo, hst, het, String.append_assoc]

/-- C9 witness: the header line at a concrete work day with and without an
end time, and its absence when `startTime` is missing. -/
theorem dayHeader_timeInfo_spec_witness :
    renderTimeInfo ⟨0, DayStatus.programmed, none, none, ⟨TimesheetStatus.notStarted, none, 0⟩, none⟩ = none ∧
    renderTimeInfo ⟨0, DayStatus.inProgress, some 0, none, ⟨TimesheetStatus.inProgress, some 0, 0⟩, none⟩ =
      some ("Inicio: " ++ formatTime 0) := by
  constructor
  · exact (dayHeader_timeInfo_spec _).1 rfl
  · exact (dayHeader_timeInfo_spec _).2.1 0 rfl rfl

/-- C1: the state machine allows exactly the transitions
not-started → in-progress ⇄ paused → completed: start/resume is valid
precisely from not-started and paused and yields in-progress with
`currentSessionStart = now` and `totalDuration` unchanged; pause is valid
precisely from in-progress and yields paused; finish is valid precisely from
in-progress and paused and yields completed; and the rendered controls offer
the start action exactly from not-started and paused. -/
theorem startTransition_spec (w : WorkDay) (now : Int)
    (hday : w.status ≠ DayStatus.completed) :
    ((∃ w', startWorkDay w now = .ok w') ↔
      (w.timesheet.status = TimesheetStatus.notStarted ∨
        w.timesheet.status = TimesheetStatus.paused)) ∧
    (∀ w', startWorkDay w now = .ok w' →
      w'.timesheet.status = TimesheetStatus.inProgress ∧
      w'.timesheet.currentSessionStart = some now ∧
      w'.timesheet.totalDuration = w.timesheet.totalDuration) ∧
    ((∃ w', pauseWorkDay w now = .ok w') ↔
      w.timesheet.status = TimesheetStatus.inProgress) ∧
    (∀ w', pauseWorkDay w now = .ok w' →
      w'.timesheet.status = TimesheetStatus.paused) ∧
    (∀ tc ev, (∃ w', finishWorkDay w now tc ev = .ok w') ↔
      (w.timesheet.status = TimesheetStatus.inProgress ∨
        w.timesheet.status = TimesheetStatus.paused)) ∧
    (∀ tc ev w', finishWorkDay w now tc ev = .ok w' →
      w'.timesheet.status = TimesheetStatus.completed) ∧
    (TimesheetAction.start ∈ offeredActions w.timesheet ↔
      (w.timesheet.status = TimesheetStatus.notStarted ∨
        w.timesheet.status = TimesheetStatus.paused)) := by
  cases hts : w.timesheet.status <;>
    simp [startWorkDay, pauseWorkDay, finishWorkDay, offeredActions,
      renderTimesheetControls, controlAction, hday, hts]

/-- C1 witness: starting a fresh not-started day succeeds and produces an
in-progress timesheet clocked in at the action's timestamp with its
accumulated duration untouched. -/
theorem startTransition_spec_witness :
    ∃ w', startWorkDay
      ⟨0, DayStatus.programmed, none, none, ⟨TimesheetStatus.notStarted, none, 0⟩, none⟩ 5 =
        .ok w' :=
  ((startTransition_spec
    ⟨0, DayStatus.programmed, none, none, ⟨TimesheetStatus.notStarted, none, 0⟩, none⟩ 5
    (by decide)).1).mpr (Or.inl rfl)

/-- C2: finishing an in-progress timesheet sets the work day's `endTime`,
populates its `summary`, moves both statuses to completed, and afterwards
every start, pause or finish attempt fails with `TerminalStateViolation`
while the controls render read-only: no transition controls are offered and
the day header shows the read-only chip. -/
theorem finishTransition_spec (w : WorkDay) (now tc ev : Int)
    (hday : w.status ≠ DayStatus.completed)
    (h : w.timesheet.status = TimesheetStatus.inProgress) :
    ∃ w', finishWorkDay w now tc ev = .ok w' ∧
      w'.endTime = some now ∧
      w'.summary.isSome = true ∧
      w'.status = DayStatus.completed ∧
      w'.timesheet.status = TimesheetStatus.completed ∧
      (∀ now2, startWorkDay w' now2 = .error TransitionError.TerminalStateViolation) ∧
      (∀ now2, pauseWorkDay w' now2 = .error TransitionError.TerminalStateViolation) ∧
      (∀ now2 tc2 ev2, finishWorkDay w' now2 tc2 ev2 =
        .error TransitionError.TerminalStateViolation) ∧
      offeredActions w'.timesheet = [] ∧
      isReadOnlyChipShown w' = true := by
  simp [finishWorkDay, startWorkDay, pauseWorkDay, offeredActions,
    renderTimesheetControls, controlAction, isReadOnlyChipShown, hday, h]

/-- C2 witness: finishing a concrete in-progress day yields a completed
record whose subsequent start attempts all fail terminally. -/
theorem finishTransition_spec_witness :
    ∃ w', finishWorkDay
      ⟨0, DayStatus.inProgress, some 0, none, ⟨TimesheetStatus.inProgress, some 0, 100⟩, none⟩
      50000 3 2 = .ok w' ∧
      w'.endTime = some 50000 ∧ w'.status = DayStatus.completed ∧
      (∀ now2, startWorkDay w' now2 = .error TransitionError.TerminalStateViolation) := by
  obtain ⟨w', h1, h2, h3, h4, h5, h6, h7, h8, h9, h10⟩ := finishTransition_spec
    ⟨0, DayStatus.inProgress, some 0, none, ⟨TimesheetStatus.inProgress, some 0, 100⟩, none⟩
    50000 3 2 (by decide) rfl
  exact ⟨w', h1, h2, h4, h6⟩

/-- C3: calling start when already in-progress, or pause or finish when
not-started, fails with `InvalidTransition` rather than silently doing
nothing, and the in-memory record after the attempt is exactly the
pre-transition record (status, `currentSessionStart` and `totalDuration`
included). -/
theorem invalidTransition_spec (w : WorkDay) (now tc ev : Int) (write : WriteResult)
    (hday : w.status ≠ DayStatus.completed) :
    (w.timesheet.status = TimesheetStatus.inProgress →
      startWorkDay w now = .error TransitionError.InvalidTransition ∧
      (startWithPersistence w now write).1 = w) ∧
    (w.timesheet.status = TimesheetStatus.notStarted →
      pauseWorkDay w now = .error TransitionError.InvalidTransition ∧
      finishWorkDay w now tc ev = .error TransitionError.InvalidTransition ∧
      (pauseWithPersistence w now write).1 = w ∧
      (finishWithPersistence w now tc ev write).1 = w) := by
  constructor
  · intro h
    have hs : startWorkDay w now = .error TransitionError.InvalidTransition := by
      simp [startWorkDay, hday, h]
    exact ⟨hs, by simp [startWithPersistence, commitTransition, hs]⟩
  · intro h
    have hp : pauseWorkDay w now = .error TransitionError.InvalidTransition := by
      simp [pauseWorkDay, hday, h]
    have hf : finishWorkDay w now tc ev = .error TransitionError.InvalidTransition := by
      simp [finishWorkDay, hday, h]
    exact ⟨hp, hf, by simp [pauseWithPersistence, commitTransition, hp],
      by simp [finishWithPersistence, commitTransition, hf]⟩

/-- C3 witness: a redundant start on an in-progress day and a pause on a
not-started day are both rejected as invalid transitions. -/
theorem invalidTransition_spec_witness :
    startWorkDay
      ⟨0, DayStatus.inProgress, some 0, none, ⟨TimesheetStatus.inProgress, some 0, 0⟩, none⟩ 7 =
      .error TransitionError.InvalidTransition ∧
    pauseWorkDay
      ⟨0, DayStatus.programmed, none, none, ⟨TimesheetStatus.notStarted, none, 0⟩, none⟩ 7 =
      .error TransitionError.InvalidTransition :=
  ⟨((invalidTransition_spec
      ⟨0, DayStatus.inProgress, some 0, none, ⟨TimesheetStatus.inProgress, some 0, 0⟩, none⟩
      7 0 0 WriteResult.success (by decide)).1 rfl).1,
   ((invalidTransition_spec
      ⟨0, DayStatus.programmed, none, none, ⟨TimesheetStatus.notStarted, none, 0⟩, none⟩
      7 0 0 WriteResult.success (by decide)).2 rfl).1⟩

/-- C4: pausing an in-progress timesheet adds the elapsed whole seconds
`⌊(now − currentSessionStart) / 1000⌋` to `totalDuration`, clears
`currentSessionStart` and sets the status to paused. -/
theorem pauseTransition_spec (w : WorkDay) (now t0 : Int)
    (hday : w.status ≠ DayStatus.completed)
    (h : w.timesheet.status = TimesheetStatus.inProgress)
    (hcss : w.timesheet.currentSessionStart = some t0) :
    ∃ w', pauseWorkDay w now = .ok w' ∧
      w'.timesheet.totalDuration =
        w.timesheet.totalDuration + Int.fdiv (now - t0) 1000 ∧
      w'.timesheet.currentSessionStart = none ∧
      w'.timesheet.status = TimesheetStatus.paused := by
  simp [pauseWorkDay, getCurrentSessionDuration, hday, h, hcss]

/-- C4 witness: with `totalDuration = 100`, a session started at `t0 = 0` and
paused 50 seconds later, the resulting `totalDuration` is 150, the session
start is cleared and the status is paused. -/
theorem pauseTransition_spec_witness :
    ∃ w', pauseWorkDay
      ⟨0, DayStatus.inProgress, some 0, none, ⟨TimesheetStatus.inProgress, some 0, 100⟩, none⟩
      50000 = .ok w' ∧
      w'.timesheet.totalDuration = 150 ∧
      w'.timesheet.currentSessionStart = none ∧
      w'.timesheet.status = TimesheetStatus.paused := by
  obtain ⟨w', h1, h2, h3, h4⟩ := pauseTransition_spec
    ⟨0, DayStatus.inProgress, some 0, none, ⟨TimesheetStatus.inProgress, some 0, 100⟩, none⟩
    50000 0 (by decide) rfl rfl
  refine ⟨w', h1, ?_, h3, h4⟩
  rw [h2]
  decide

/-- C5: a transition whose persistence write fails is rolled back atomically:
the in-memory record stays at its pre-transition value and the failure is
surfaced; in particular a failed write during start leaves the in-memory
status at not-started. -/
theorem rollback_spec (w : WorkDay) (now : Int) :
    (startWithPersistence w now WriteResult.failure).1 = w ∧
    (pauseWithPersistence w now WriteResult.failure).1 = w ∧
    (∀ tc ev, (finishWithPersistence w now tc ev WriteResult.failure).1 = w) ∧
    ((∃ w', startWorkDay w now = .ok w') →
      (startWithPersistence w now WriteResult.failure).2 =
        some TransitionError.PersistenceFailure) ∧
    (w.timesheet.status = TimesheetStatus.notStarted →
      (startWithPersistence w now WriteResult.failure).1.timesheet.status =
        TimesheetStatus.notStarted) := by
  have hc : ∀ r, (commitTransition w r WriteResult.failure).1 = w := by
    intro r
    cases r <;> rfl
  refine ⟨hc _, hc _, fun tc ev => hc _, ?_, ?_⟩
  · rintro ⟨w', hw'⟩
    simp [startWithPersistence, commitTransition, hw']
  · intro h
    show (commitTransition w (startWorkDay w now) WriteResult.failure).1.timesheet.status = _
    rw [hc]
    exact h

/-- C5 witness: a failed write during the start of a concrete not-started day
leaves the in-memory status at not-started and surfaces the persistence
failure. -/
theorem rollback_spec_witness :
    (startWithPersistence
      ⟨0, DayStatus.programmed, none, none, ⟨TimesheetStatus.notStarted, none, 0⟩, none⟩
      5 WriteResult.failure).1.timesheet.status = TimesheetStatus.notStarted ∧
    (startWithPersistence
      ⟨0, DayStatus.programmed, none, none, ⟨TimesheetStatus.notStarted, none, 0⟩, none⟩
      5 WriteResult.failure).2 = some TransitionError.PersistenceFailure :=
  ⟨(rollback_spec
      ⟨0, DayStatus.programmed, none, none, ⟨TimesheetStatus.notStarted, none, 0⟩, none⟩
      5).2.2.2.2 rfl,
   (rollback_spec
      ⟨0, DayStatus.programmed, none, none, ⟨TimesheetStatus.notStarted, none, 0⟩, none⟩
      5).2.2.2.1 ⟨_, rfl⟩⟩

/-- C6: every operation preserves the data-model invariants —
`currentSessionStart` present iff the timesheet is in-progress, `endTime` set
iff the day is completed, `summary` present iff the day is completed — and
`totalDuration` is untouched by start and by finish-from-paused, while the
displayed total merely adds the live session length on top of the stored
`totalDuration` without persisting it. -/
theorem invariants_preserved (w : WorkDay) (now tc ev : Int) (hw : workDayInv w) :
    (∀ w', startWorkDay w now = .ok w' →
      workDayInv w' ∧ w'.timesheet.totalDuration = w.timesheet.totalDuration) ∧
    (∀ w', pauseWorkDay w now = .ok w' → workDayInv w') ∧
    (∀ w', finishWorkDay w now tc ev = .ok w' → workDayInv w') ∧
    (∀ w', finishWorkDay w now tc ev = .ok w' →
      w.timesheet.status = TimesheetStatus.paused →
      w'.timesheet.totalDuration = w.timesheet.totalDuration) ∧
    (getTotalDisplayDuration w.timesheet now =
      w.timesheet.totalDuration +
        (if w.timesheet.status = TimesheetStatus.inProgress then
          getCurrentSessionDuration w.timesheet.currentSessionStart now
        else 0)) := by
  obtain ⟨hts, hend, hsum⟩ := hw
  by_cases hd : w.status = DayStatus.completed
  · simp [startWorkDay, pauseWorkDay, finishWorkDay, getTotalDisplayDuration, hd]
  · cases hs : w.timesheet.status <;>
      simp_all [startWorkDay, pauseWorkDay, finishWorkDay, workDayInv, timesheetInv,
        getTotalDisplayDuration, hd, hs]

/-- C6 witness: a concrete in-progress day satisfying the invariants keeps
them across a pause. -/
theorem invariants_preserved_witness :
    workDayInv ⟨0, DayStatus.inProgress, some 0, none, ⟨TimesheetStatus.paused, none, 150⟩, none⟩ :=
  (invariants_preserved
    ⟨0, DayStatus.inProgress, some 0, none, ⟨TimesheetStatus.inProgress, some 0, 100⟩, none⟩
    50000 0 0 (by decide)).2.1
    ⟨0, DayStatus.inProgress, some 0, none, ⟨TimesheetStatus.paused, none, 150⟩, none⟩ rfl
